import Mathlib

/-!
Verification of the meeting-agent real-time transcription core.

The definitions below are a shallow embedding of the Python sources:
  * `src/src/transcription/transcriber.py` (class `Transcriber`)
  * `src/src/main.py` (class `MeetingAgent`)

Byte strings are modelled as `List ℕ` (each entry one byte value), money and
durations as exact rationals (`ℚ`), and the external collaborators
(Whisper transcription service, audio recorder, database, summarizer, email
sender) as explicit result parameters supplied by the environment, since
their outcomes are decided outside the program.

Blocking on the non-reentrant `threading.Lock` is modelled with `Option`:
a function returns `none` exactly when the embedded code blocks forever
(acquiring a lock already held by the same thread) and hence never returns.
-/

namespace MeetingAgentProof

/-! ## WAV framing (`Transcriber._create_wav_from_chunks`, via the `wave` module) -/

/-- Two-byte little-endian encoding, as the `wave` module writes 16-bit fields. -/
def le16 (n : ℕ) : List ℕ := [n % 256, n / 256 % 256]

/-- Four-byte little-endian encoding, as the `wave` module writes 32-bit fields. -/
def le32 (n : ℕ) : List ℕ :=
  [n % 256, n / 256 % 256, n / 65536 % 256, n / 16777216 % 256]

/-- The 44-byte canonical PCM RIFF/WAVE header the Python `wave` module emits on a
seekable stream after `close` patches the sizes: RIFF tag, riff size, WAVE tag,
fmt tag, fmt size 16, format 1 (PCM), channels, sample rate, byte rate,
block align, bits per sample, data tag, data length. -/
def wavHeader (channels sampleWidth sampleRate dataLen : ℕ) : List ℕ :=
  [82, 73, 70, 70] ++ le32 (36 + dataLen) ++
  [87, 65, 86, 69] ++ [102, 109, 116, 32] ++ le32 16 ++
  le16 1 ++ le16 channels ++ le32 sampleRate ++
  le32 (sampleRate * channels * sampleWidth) ++
  le16 (channels * sampleWidth) ++ le16 (sampleWidth * 8) ++
  [100, 97, 116, 97] ++ le32 dataLen

/-- Embedding of `Transcriber._create_wav_from_chunks`: all chunks are written in
order with `writeframes` (pure concatenation of the raw bytes), wrapped in a
header declaring the capture channels, sample width and sample rate. -/
def create_wav_from_chunks (channels sampleWidth sampleRate : ℕ)
    (chunks : List (List ℕ)) : List ℕ :=
  wavHeader channels sampleWidth sampleRate chunks.flatten.length ++ chunks.flatten

/-! ## Transcriber state (`Transcriber.__init__`) -/

/-- Whisper API price per minute (`Transcriber.WHISPER_COST_PER_MINUTE = 0.006`). -/
def whisperCostPerMinute : ℚ := 6 / 1000

/-- The mutable fields of a `Transcriber` instance that the embedded operations
read or write.  `audio_chunks` is the buffer `self._audio_chunks` guarded by
`self._buffer_lock`; the three audio parameters are set in `__init__` and never
written again by any method. -/
structure Transcriber where
  is_transcribing : Bool
  current_transcript : String
  total_audio_duration : ℚ
  total_cost : ℚ
  audio_chunks : List (List ℕ)
  sample_rate : ℕ
  channels : ℕ
  sample_width : ℕ
deriving DecidableEq, Repr

/-- The state `Transcriber.__init__` establishes (44100 Hz, mono, 16-bit). -/
def initTranscriber : Transcriber :=
  { is_transcribing := false
    current_transcript := ""
    total_audio_duration := 0
    total_cost := 0
    audio_chunks := []
    sample_rate := 44100
    channels := 1
    sample_width := 2 }

/-- Cost report of `Transcriber.get_cost_info`. -/
structure CostReport where
  total_duration_seconds : ℚ
  total_duration_minutes : ℚ
  total_cost : ℚ
  cost_per_minute : ℚ
deriving DecidableEq, Repr

/-- Embedding of `Transcriber.get_cost_info`. -/
def get_cost_info (s : Transcriber) : CostReport :=
  { total_duration_seconds := s.total_audio_duration
    total_duration_minutes := s.total_audio_duration / 60
    total_cost := s.total_cost
    cost_per_minute := whisperCostPerMinute }

/-- Embedding of `Transcriber.start_transcription`: refuses when already
running, otherwise resets the transcript, clears the buffer, and launches the
worker thread.  Returns the updated state and the boolean result. -/
def start_transcription (s : Transcriber) : Transcriber × Bool :=
  if s.is_transcribing then (s, false)
  else
    ({ s with is_transcribing := true, current_transcript := "", audio_chunks := [] }, true)

/-- Embedding of `Transcriber.add_audio_chunk`: appends under the buffer lock
when transcribing, otherwise rejects the chunk. -/
def add_audio_chunk (s : Transcriber) (data : List ℕ) : Transcriber × Bool :=
  if s.is_transcribing then ({ s with audio_chunks := s.audio_chunks ++ [data] }, true)
  else (s, false)

/-! ## Worker drain (`Transcriber._process_audio_buffer`)

Observable events of one drain, in program order.  `lockAcquire`/`lockRelease`
delimit the `with self._buffer_lock:` critical section, `drain` records the
batch swapped out of the buffer (`copy()` then `clear()`), `netCall` is the
Whisper API request carrying the framed payload, and `segEvt` is the
partial-transcript callback `(text, is_final=False)`. -/
inductive TEvent where
  | lockAcquire : TEvent
  | lockRelease : TEvent
  | drain (batch : List (List ℕ)) : TEvent
  | netCall (payload : List ℕ) : TEvent
  | segEvt (text : String) : TEvent
  | finalEvt (text : String) : TEvent
deriving DecidableEq, Repr

/-- Result of the external Whisper call (`Transcriber._transcribe_audio_file`):
either the text returned by the service or a raised exception. -/
abbrev SvcResult := Except Unit String

/-- Embedding of `Transcriber._process_audio_buffer`.  `res` is the outcome the
external service would give for this batch; `lockHeld` says whether the calling
thread already holds `self._buffer_lock`.  Returns `none` when the code blocks
forever (re-acquiring the held non-reentrant lock), otherwise the new state and
the emitted events.  The internal try/except turns a service failure into a
log line, so a failed call still returns normally with no state change beyond
the drained buffer. -/
def process_audio_buffer (res : SvcResult) (lockHeld : Bool) (s : Transcriber) :
    Option (Transcriber × List TEvent) :=
  if lockHeld then none
  else if s.audio_chunks = [] then some (s, [.lockAcquire, .lockRelease])
  else
    let batch := s.audio_chunks
    let s1 : Transcriber := { s with audio_chunks := [] }
    let evs0 : List TEvent := [.lockAcquire, .drain batch, .lockRelease]
    if batch.length < 2 then some (s1, evs0)
    else
      let wav := create_wav_from_chunks s.channels s.sample_width s.sample_rate batch
      if wav.length < 1000 then some (s1, evs0)
      else
        match res with
        | .error _ => some (s1, evs0 ++ [.netCall wav])
        | .ok raw =>
          let dur : ℚ := (batch.length * 1024 : ℚ) /
            ((s.sample_rate : ℚ) * (s.channels : ℚ) * (s.sample_width : ℚ))
          let s2 : Transcriber := { s1 with
            total_audio_duration := s1.total_audio_duration + dur
            total_cost := s1.total_cost + dur / 60 * whisperCostPerMinute }
          let text := raw.trim
          if text = "" then some (s2, evs0 ++ [.netCall wav])
          else
            let s3 : Transcriber := { s2 with current_transcript :=
              if s2.current_transcript = "" then text
              else s2.current_transcript ++ " " ++ text }
            some (s3, evs0 ++ [.netCall wav, .segEvt text])

/-- Embedding of `Transcriber._process_remaining_audio`: it enters
`with self._buffer_lock:` (the caller does not hold the lock, so the acquire
succeeds) and, if chunks remain, calls `_process_audio_buffer` while still
holding the lock; after the with-block it emits the final callback
`(current_transcript, is_final=True)` when the transcript is non-empty. -/
def process_remaining_audio (res : SvcResult) (s : Transcriber) :
    Option (Transcriber × List TEvent) :=
  if s.audio_chunks = [] then
    some (s, [.lockAcquire, .lockRelease] ++
      (if s.current_transcript = "" then [] else [.finalEvt s.current_transcript]))
  else
    match process_audio_buffer res true s with
    | none => none
    | some (s1, evs) =>
      some (s1, [.lockAcquire] ++ evs ++ [.lockRelease] ++
        (if s1.current_transcript = "" then [] else [.finalEvt s1.current_transcript]))

/-- Embedding of `Transcriber.stop_transcription`: a no-op returning the
transcript when not transcribing; otherwise it sets the stop event, joins the
worker (bounded timeout), runs the flush `_process_remaining_audio`, clears
`is_transcribing` and returns the accumulated transcript.  `none` means the
call never returns. -/
def stop_transcription (res : SvcResult) (s : Transcriber) :
    Option (Transcriber × String) :=
  if s.is_transcribing then
    match process_remaining_audio res s with
    | none => none
    | some (s1, _) => some ({ s1 with is_transcribing := false }, s1.current_transcript)
  else some (s, s.current_transcript)

/-! ## Multi-round worker runs

`Transcriber._processing_loop` wakes every `_process_interval` seconds and
calls `_process_audio_buffer` once per wake.  A `Round` is one such wake
together with the chunks the capture callback appended before it and the
outcome the external service would give its batch. -/

/-- One worker wake: the chunks appended (in arrival order) since the previous
wake, and the service outcome for the batch framed on this wake. -/
structure Round where
  chunks : List (List ℕ)
  res : SvcResult
deriving Repr

/-- Appending a sequence of chunks via `add_audio_chunk` in arrival order. -/
def appendChunks (s : Transcriber) (cs : List (List ℕ)) : Transcriber :=
  cs.foldl (fun t c => (add_audio_chunk t c).1) s

/-- Running the worker over a list of rounds: each round appends its chunks and
then performs one `_process_audio_buffer` wake (lock not held).  `none` when a
wake blocks forever. -/
def runRounds (s : Transcriber) : List Round → Option (Transcriber × List TEvent)
  | [] => some (s, [])
  | r :: rest =>
    match process_audio_buffer r.res false (appendChunks s r.chunks) with
    | none => none
    | some (s1, evs) =>
      match runRounds s1 rest with
      | none => none
      | some (s2, evs2) => some (s2, evs ++ evs2)

/-- Space-joining one new segment onto a running transcript, exactly as
`_process_audio_buffer` updates `self.current_transcript`. -/
def joinSeg (t seg : String) : String := if t = "" then seg else t ++ " " ++ seg

/-- Space-joining a list of segments in order onto a running transcript. -/
def joinSegs (t : String) (segs : List String) : String := segs.foldl joinSeg t

/-- Whether a round's batch passes both silence thresholds and is sent to the
service: at least 2 chunks and a framed payload of at least 1000 bytes. -/
def Round.qualifies (r : Round) : Prop :=
  2 ≤ r.chunks.length ∧ 1000 ≤ 44 + r.chunks.flatten.length

instance (r : Round) : Decidable r.qualifies := by
  unfold Round.qualifies; infer_instance

/-- The transcript segments a round contributes: the trimmed service text when
the batch qualifies, the call succeeds and the text is non-empty. -/
def Round.segs (r : Round) : List String :=
  if r.qualifies then
    match r.res with
    | .ok raw => if raw.trim = "" then [] else [raw.trim]
    | .error _ => []
  else []

/-- The billed duration (seconds) a round adds, for a transcriber with the
given audio parameters: the implied batch duration when the batch qualifies and
the service call succeeds, zero otherwise. -/
def Round.billedDur (rate ch w : ℕ) (r : Round) : ℚ :=
  if r.qualifies then
    match r.res with
    | .ok _ => (r.chunks.length * 1024 : ℚ) / ((rate : ℚ) * (ch : ℚ) * (w : ℚ))
    | .error _ => 0
  else 0

/-- The cost a round adds: billed duration, per-minute rate applied. -/
def Round.cost (rate ch w : ℕ) (r : Round) : ℚ :=
  Round.billedDur rate ch w r / 60 * whisperCostPerMinute

/-! ## MeetingAgent (`src/src/main.py`)

The controller's mutable state, its collaborators modelled as environment-
supplied outcomes, and the two lifecycle operations `start_meeting` and
`stop_meeting`.  Database rows written by `save_meeting` are modelled as a
list; the later column updates (`update_meeting_transcript`,
`update_meeting_summary`, `mark_meeting_sent`) are modelled by their
success/failure outcome only, which is all the claims mention. -/

/-- Python exception kinds the embedded controller raises or propagates. -/
inductive PyErr where
  | valueError (msg : String)
  | runtimeError (msg : String)
  | dbError (msg : String)
  | serviceError (msg : String)
deriving DecidableEq, Repr

/-- Message of an exception (`str(e)`). -/
def PyErr.msg : PyErr → String
  | .valueError m => m
  | .runtimeError m => m
  | .dbError m => m
  | .serviceError m => m

/-- One row of the `meetings` table as inserted by `Database.save_meeting`. -/
structure MeetingRow where
  id : ℕ
  name : String
  participants : List String
  audio_file_path : Option String
deriving DecidableEq, Repr

/-- The in-memory `self.current_meeting` dict set by `start_meeting`. -/
structure Meeting where
  id : ℕ
  name : String
  participants : List String
  start_time : ℕ
  audio_file_path : String
  status : String
deriving DecidableEq, Repr

/-- The `MeetingAgent` state the claims read or write: the active-session slot
`self.current_meeting`, the database rows created so far, and the audio files
whose recording has been started. -/
structure AgentState where
  current_meeting : Option Meeting
  db_rows : List MeetingRow
  audio_files : List String
deriving DecidableEq, Repr

/-- Embedding of `Database.save_meeting`: inserts a new row and returns the
cursor's `lastrowid`. -/
def save_meeting (db : List MeetingRow) (name : String) (parts : List String)
    (path : Option String) : List MeetingRow × ℕ :=
  let mid := db.length + 1
  (db ++ [{ id := mid, name := name, participants := parts, audio_file_path := path }], mid)

/-- Audio path `data/recordings/meeting_{id}_{timestamp}.wav` derived in
`start_meeting` (the timestamp abstracted to a natural number). -/
def audioFilePath (mid ts : ℕ) : String :=
  "data/recordings/meeting_" ++ toString mid ++ "_" ++ toString ts ++ ".wav"

/-- Environment for one `start_meeting` call: the wall clock and whether the
audio recorder and the transcriber start successfully. -/
structure StartEnv where
  now : ℕ
  recorder_ok : Bool
  transcriber_ok : Bool
deriving Repr

/-- Embedding of `MeetingAgent.start_meeting`.  Raises `ValueError` at once
when a meeting is already being recorded; otherwise inserts the meeting row,
derives the audio path, starts the recorder (on failure the exception
propagates after the cleanup handler, with the inserted row kept), starts the
transcriber (on failure the recorder is stopped first, the created audio file
kept), inserts a second row carrying the audio path (`save_meeting` inserts, it
does not update), sets `self.current_meeting` and returns a copy of it. -/
def start_meeting (env : StartEnv) (name : String) (parts : List String)
    (s : AgentState) : AgentState × Except PyErr Meeting :=
  if s.current_meeting.isSome then
    (s, .error (.valueError "A meeting is already being recorded"))
  else
    let r1 := save_meeting s.db_rows name parts none
    let s1 : AgentState := { s with db_rows := r1.1 }
    let path := audioFilePath r1.2 env.now
    if env.recorder_ok = false then
      (s1, .error (.runtimeError "Failed to start audio recording"))
    else
      let s2 : AgentState := { s1 with audio_files := s1.audio_files ++ [path] }
      if env.transcriber_ok = false then
        (s2, .error (.runtimeError "Failed to start transcription"))
      else
        let r2 := save_meeting s2.db_rows name parts (some path)
        let m : Meeting :=
          { id := r1.2, name := name, participants := parts, start_time := env.now
            audio_file_path := path, status := "recording" }
        ({ s2 with db_rows := r2.1, current_meeting := some m }, .ok m)

/-- Summary record returned by the Summarization Service. -/
structure Summary where
  executive_summary : String
  key_points : List String
  decisions_made : List String
  action_items : List String
  next_steps : List String
  error : Option String
deriving DecidableEq, Repr

/-- The placeholder summary `stop_meeting` substitutes when summarization (or
saving the summary) raises. -/
def placeholderSummary (msg : String) : Summary :=
  { executive_summary := "Summary generation failed"
    key_points := [], decisions_made := [], action_items := [], next_steps := []
    error := some msg }

/-- Environment for one `stop_meeting` call: the wall clock and the outcome of
each collaborator call, in program order. -/
structure StopEnv where
  now : ℕ
  audio_stop : Except PyErr String
  transcriber_stop : Except PyErr String
  cost : CostReport
  db_update_transcript_ok : Bool
  summarize : Except PyErr Summary
  db_update_summary_ok : Bool
  email_send : Except PyErr Bool
deriving Repr

/-- The completed-meeting record `stop_meeting` returns. -/
structure CompletedMeeting where
  id : ℕ
  name : String
  participants : List String
  start_time : ℕ
  audio_file_path : String
  end_time : ℕ
  duration_minutes : ℕ
  transcript : String
  summary : Summary
  audio_info : String
  cost : CostReport
  status : String
deriving DecidableEq, Repr

/-- Embedding of `MeetingAgent.stop_meeting`.  Raises `ValueError` when no
meeting is active.  The outer try covers stopping the recorder, stopping the
transcriber and the transcript persistence; if any of those raises, the
`except` handler attempts cleanup, clears `self.current_meeting`, and
re-raises.  Summarization failure (or a failing summary save) is caught and
replaced by the placeholder summary; email failure is caught and only logged.
On the normal path the completed record is returned with status `completed`
and the active-session slot cleared. -/
def stop_meeting (env : StopEnv) (s : AgentState) :
    AgentState × Except PyErr CompletedMeeting :=
  match s.current_meeting with
  | none => (s, .error (.valueError "No meeting is currently being recorded"))
  | some m =>
    match env.audio_stop with
    | .error e => ({ s with current_meeting := none }, .error e)
    | .ok audio_info =>
      match env.transcriber_stop with
      | .error e => ({ s with current_meeting := none }, .error e)
      | .ok final_transcript =>
        if env.db_update_transcript_ok = false then
          ({ s with current_meeting := none },
            .error (.dbError "update_meeting_transcript failed"))
        else
          let summary :=
            match env.summarize with
            | .error e => placeholderSummary e.msg
            | .ok su =>
              if env.db_update_summary_ok then su
              else placeholderSummary "update_meeting_summary failed"
          let completed : CompletedMeeting :=
            { id := m.id, name := m.name, participants := m.participants
              start_time := m.start_time, audio_file_path := m.audio_file_path
              end_time := env.now, duration_minutes := (env.now - m.start_time) / 60
              transcript := final_transcript, summary := summary
              audio_info := audio_info, cost := env.cost, status := "completed" }
          ({ s with current_meeting := none }, .ok completed)

/-- The framed payloads carried by the network-call events of a trace. -/
def netPayloads : List TEvent → List (List ℕ)
  | [] => []
  | .netCall w :: rest => w :: netPayloads rest
  | _ :: rest => netPayloads rest

/-! ## Helper lemmas -/

theorem wavHeader_length (c w r d : ℕ) : (wavHeader c w r d).length = 44 := rfl

theorem create_wav_length (c w r : ℕ) (chunks : List (List ℕ)) :
    (create_wav_from_chunks c w r chunks).length = 44 + chunks.flatten.length := by
  simp [create_wav_from_chunks, wavHeader_length]

theorem add_audio_chunk_on (s : Transcriber) (c : List ℕ) (ht : s.is_transcribing = true) :
    add_audio_chunk s c = ({ s with audio_chunks := s.audio_chunks ++ [c] }, true) := by
  simp [add_audio_chunk, ht]

theorem appendChunks_on (s : Transcriber) (cs : List (List ℕ))
    (ht : s.is_transcribing = true) :
    appendChunks s cs = { s with audio_chunks := s.audio_chunks ++ cs } := by
  induction cs generalizing s with
  | nil => simp [appendChunks]
  | cons c cs ih =>
    show appendChunks (add_audio_chunk s c).1 cs = _
    rw [add_audio_chunk_on s c ht, ih _ (by simp [ht])]
    simp

theorem process_audio_buffer_run (res : SvcResult) (s : Transcriber) :
    ∃ s' evs, process_audio_buffer res false s = some (s', evs) ∧
      s'.is_transcribing = s.is_transcribing ∧
      s'.audio_chunks = [] ∧
      s'.sample_rate = s.sample_rate ∧
      s'.channels = s.channels ∧
      s'.sample_width = s.sample_width ∧
      s'.current_transcript =
        joinSegs s.current_transcript (Round.segs ⟨s.audio_chunks, res⟩) ∧
      s'.total_audio_duration = s.total_audio_duration +
        Round.billedDur s.sample_rate s.channels s.sample_width ⟨s.audio_chunks, res⟩ ∧
      s'.total_cost = s.total_cost +
        Round.cost s.sample_rate s.channels s.sample_width ⟨s.audio_chunks, res⟩ ∧
      netPayloads evs = (if Round.qualifies ⟨s.audio_chunks, res⟩
        then [create_wav_from_chunks s.channels s.sample_width s.sample_rate s.audio_chunks]
        else []) := by
  by_cases hb : s.audio_chunks = []
  · have hq' : ¬ Round.qualifies ⟨s.audio_chunks, res⟩ := by
      unfold Round.qualifies; dsimp only; rw [hb]; simp
    refine ⟨s, [.lockAcquire, .lockRelease], by simp [process_audio_buffer, hb],
      rfl, hb, rfl, rfl, rfl, ?_, ?_, ?_, ?_⟩
    · simp [Round.segs, hq', joinSegs]
    · simp [Round.billedDur, hq']
    · simp [Round.cost, Round.billedDur, hq']
    · simp [netPayloads, hq']
  · by_cases h2 : s.audio_chunks.length < 2
    · have hq' : ¬ Round.qualifies ⟨s.audio_chunks, res⟩ := by
        unfold Round.qualifies; dsimp only; omega
      refine ⟨{ s with audio_chunks := [] },
        [.lockAcquire, .drain s.audio_chunks, .lockRelease],
        by simp [process_audio_buffer, hb, h2], rfl, rfl, rfl, rfl, rfl, ?_, ?_, ?_, ?_⟩
      · simp [Round.segs, hq', joinSegs]
      · simp [Round.billedDur, hq']
      · simp [Round.cost, Round.billedDur, hq']
      · simp [netPayloads, hq']
    · by_cases hw : (create_wav_from_chunks s.channels s.sample_width s.sample_rate
        s.audio_chunks).length < 1000
      · have hwlen : 44 + s.audio_chunks.flatten.length < 1000 := by
          rw [create_wav_length] at hw; exact hw
        have hq' : ¬ Round.qualifies ⟨s.audio_chunks, res⟩ := by
          unfold Round.qualifies; dsimp only; omega
        refine ⟨{ s with audio_chunks := [] },
          [.lockAcquire, .drain s.audio_chunks, .lockRelease],
          by simp [process_audio_buffer, hb, h2, hw], rfl, rfl, rfl, rfl, rfl,
          ?_, ?_, ?_, ?_⟩
        · simp [Round.segs, hq', joinSegs]
        · simp [Round.billedDur, hq']
        · simp [Round.cost, Round.billedDur, hq']
        · simp [netPayloads, hq']
      · have hwlen : ¬ (44 + s.audio_chunks.flatten.length < 1000) := by
          rw [create_wav_length] at hw; exact hw
        have hq : Round.qualifies ⟨s.audio_chunks, res⟩ := by
          unfold Round.qualifies; dsimp only; omega
        match res, hq with
        | .error u, hq =>
          refine ⟨{ s with audio_chunks := [] },
            [.lockAcquire, .drain s.audio_chunks, .lockRelease,
              .netCall (create_wav_from_chunks s.channels s.sample_width s.sample_rate
                s.audio_chunks)],
            by simp [process_audio_buffer, hb, h2, hw], rfl, rfl, rfl, rfl, rfl,
            ?_, ?_, ?_, ?_⟩
          · simp [Round.segs, hq, joinSegs]
          · simp [Round.billedDur, hq]
          · simp [Round.cost, Round.billedDur, hq]
          · simp [netPayloads, hq]
        | .ok raw, hq =>
          by_cases htxt : raw.trim = ""
          · refine ⟨{ s with
                        audio_chunks := [],
                        total_audio_duration := s.total_audio_duration +
                          (s.audio_chunks.length * 1024 : ℚ) /
                            ((s.sample_rate : ℚ) * (s.channels : ℚ) * (s.sample_width : ℚ)),
                        total_cost := s.total_cost +
                          (s.audio_chunks.length * 1024 : ℚ) /
                            ((s.sample_rate : ℚ) * (s.channels : ℚ) * (s.sample_width : ℚ)) /
                            60 * whisperCostPerMinute },
              [.lockAcquire, .drain s.audio_chunks, .lockRelease,
                .netCall (create_wav_from_chunks s.channels s.sample_width s.sample_rate
                  s.audio_chunks)],
              by simp [process_audio_buffer, hb, h2, hw, htxt],
              rfl, rfl, rfl, rfl, rfl, ?_, ?_, ?_, ?_⟩
            · simp [Round.segs, hq, joinSegs, htxt]
            · simp [Round.billedDur, hq]
            · simp [Round.cost, Round.billedDur, hq]
            · simp [netPayloads, hq]
          · refine ⟨{ s with
                        audio_chunks := [],
                        current_transcript := if s.current_transcript = "" then raw.trim
                          else s.current_transcript ++ " " ++ raw.trim,
                        total_audio_duration := s.total_audio_duration +
                          (s.audio_chunks.length * 1024 : ℚ) /
                            ((s.sample_rate : ℚ) * (s.channels : ℚ) * (s.sample_width : ℚ)),
                        total_cost := s.total_cost +
                          (s.audio_chunks.length * 1024 : ℚ) /
                            ((s.sample_rate : ℚ) * (s.channels : ℚ) * (s.sample_width : ℚ)) /
                            60 * whisperCostPerMinute },
              [.lockAcquire, .drain s.audio_chunks, .lockRelease,
                .netCall (create_wav_from_chunks s.channels s.sample_width s.sample_rate
                  s.audio_chunks), .segEvt raw.trim],
              by simp [process_audio_buffer, hb, h2, hw, htxt],
              rfl, rfl, rfl, rfl, rfl, ?_, ?_, ?_, ?_⟩
            · simp [Round.segs, hq, joinSegs, htxt, joinSeg]
            · simp [Round.billedDur, hq]
            · simp [Round.cost, Round.billedDur, hq]
            · simp [netPayloads, hq]

theorem runRounds_run (rs : List Round) (s : Transcriber)
    (ht : s.is_transcribing = true) (hb : s.audio_chunks = []) :
    ∃ s' evs, runRounds s rs = some (s', evs) ∧
      s'.is_transcribing = true ∧
      s'.audio_chunks = [] ∧
      s'.sample_rate = s.sample_rate ∧
      s'.channels = s.channels ∧
      s'.sample_width = s.sample_width ∧
      s'.current_transcript = joinSegs s.current_transcript (rs.map Round.segs).flatten ∧
      s'.total_audio_duration = s.total_audio_duration +
        (rs.map (Round.billedDur s.sample_rate s.channels s.sample_width)).sum ∧
      s'.total_cost = s.total_cost +
        (rs.map (Round.cost s.sample_rate s.channels s.sample_width)).sum := by
  induction rs generalizing s with
  | nil =>
    exact ⟨s, [], rfl, ht, hb, rfl, rfl, rfl, by simp [joinSegs], by simp, by simp⟩
  | cons r rest ih =>
    have hA := appendChunks_on s r.chunks ht
    obtain ⟨s1, evs1, hrun, hT, hB, hR, hC, hW, hTr, hD, hCo, _⟩ :=
      process_audio_buffer_run r.res (appendChunks s r.chunks)
    rw [hA] at hT hR hC hW hTr hD hCo
    dsimp only at hT hR hC hW hTr hD hCo
    rw [hb] at hTr hD hCo
    simp only [List.nil_append] at hTr hD hCo
    have hr : (⟨r.chunks, r.res⟩ : Round) = r := rfl
    rw [hr] at hTr hD hCo
    obtain ⟨s2, evs2, hrun2, hT2, hB2, hR2, hC2, hW2, hTr2, hD2, hCo2⟩ :=
      ih s1 (by rw [hT]; exact ht) hB
    rw [hR, hC, hW] at hD2 hCo2
    refine ⟨s2, evs1 ++ evs2, ?_, hT2, hB2, ?_, ?_, ?_, ?_, ?_, ?_⟩
    · simp only [runRounds, hrun, hrun2]
    · rw [hR2, hR]
    · rw [hC2, hC]
    · rw [hW2, hW]
    · rw [hTr2, hTr]
      simp [joinSegs, List.foldl_append]
    · rw [hD2, hD]
      simp [add_assoc]
    · rw [hCo2, hCo]
      simp [add_assoc]

theorem stop_transcription_empty_buffer (res : SvcResult) (s : Transcriber)
    (ht : s.is_transcribing = true) (hb : s.audio_chunks = []) :
    stop_transcription res s =
      some ({ s with is_transcribing := false }, s.current_transcript) := by
  simp [stop_transcription, process_remaining_audio, ht, hb]

theorem start_meeting_idle (env : StartEnv) (n : String) (p : List String) (s : AgentState)
    (h : s.current_meeting = none) (hr : env.recorder_ok = true)
    (htr : env.transcriber_ok = true) :
    start_meeting env n p s =
      ({ s with
          db_rows := (s.db_rows ++
              [{ id := s.db_rows.length + 1, name := n, participants := p,
                 audio_file_path := none }]) ++
            [{ id := s.db_rows.length + 2, name := n, participants := p,
               audio_file_path := some (audioFilePath (s.db_rows.length + 1) env.now) }],
          audio_files := s.audio_files ++ [audioFilePath (s.db_rows.length + 1) env.now],
          current_meeting := some
            { id := s.db_rows.length + 1, name := n, participants := p,
              start_time := env.now,
              audio_file_path := audioFilePath (s.db_rows.length + 1) env.now,
              status := "recording" } },
        .ok { id := s.db_rows.length + 1, name := n, participants := p,
              start_time := env.now,
              audio_file_path := audioFilePath (s.db_rows.length + 1) env.now,
              status := "recording" }) := by
  simp [start_meeting, save_meeting, h, hr, htr]

/-! ## Concrete fixtures used by the closed theorems and witnesses -/

/-- The transcriber right after a successful `start_transcription` on a fresh
instance. -/
def startedTranscriber : Transcriber := (start_transcription initTranscriber).1

/-- A transcribing instance with one 1024-byte chunk still in the buffer at the
moment the stop-time flush runs. -/
def flushPendingTranscriber : Transcriber :=
  { startedTranscriber with audio_chunks := [List.replicate 1024 0] }

/-- An agent with no active meeting and an empty database. -/
def idleAgent : AgentState := { current_meeting := none, db_rows := [], audio_files := [] }

/-- A start environment in which the recorder and the transcriber both start. -/
def okStartEnv : StartEnv := { now := 0, recorder_ok := true, transcriber_ok := true }

/-- The in-memory meeting record of a recording session started from idle. -/
def demoMeeting : Meeting :=
  { id := 1, name := "Standup", participants := [], start_time := 0,
    audio_file_path := audioFilePath 1 0, status := "recording" }

/-- An agent currently recording `demoMeeting`. -/
def activeAgent : AgentState :=
  { current_meeting := some demoMeeting,
    db_rows :=
      [{ id := 1, name := "Standup", participants := [], audio_file_path := none },
       { id := 2, name := "Standup", participants := [],
         audio_file_path := some (audioFilePath 1 0) }],
    audio_files := [audioFilePath 1 0] }

/-- A successful summary returned by the Summarization Service. -/
def demoSummary : Summary :=
  { executive_summary := "All good", key_points := [], decisions_made := []
    action_items := [], next_steps := [], error := none }

/-- A stop environment in which only the transcript persistence fails. -/
def dbFailStopEnv : StopEnv :=
  { now := 60, audio_stop := .ok "audio closed", transcriber_stop := .ok "hello world"
    cost := get_cost_info initTranscriber, db_update_transcript_ok := false
    summarize := .ok demoSummary, db_update_summary_ok := true, email_send := .ok true }

/-- A stop environment in which summarization and email both fail. -/
def downstreamFailStopEnv : StopEnv :=
  { now := 60, audio_stop := .ok "audio closed", transcriber_stop := .ok "hello world"
    cost := get_cost_info initTranscriber, db_update_transcript_ok := true
    summarize := .error (.serviceError "summarizer down")
    db_update_summary_ok := true, email_send := .error (.serviceError "smtp down") }

/-! ## Claims -/

/-- C1: the claim says `stop_transcription` always terminates, flushing any
chunks still buffered.  The code disagrees: `_process_remaining_audio` holds
the non-reentrant `_buffer_lock` while calling `_process_audio_buffer`, which
re-acquires the same lock on the same thread, so whenever chunks remain in the
buffer at flush time the call blocks forever (modelled as `none`) — even though
the service call itself would succeed.  With an empty buffer the same call
terminates normally, returning the accumulated transcript. -/
theorem c1_stop_flush_deadlocks :
    flushPendingTranscriber.is_transcribing = true ∧
    flushPendingTranscriber.audio_chunks ≠ [] ∧
    stop_transcription (.ok "hello") flushPendingTranscriber = none ∧
    stop_transcription (.ok "hello") { flushPendingTranscriber with audio_chunks := [] } =
      some ({ flushPendingTranscriber with audio_chunks := [], is_transcribing := false },
        "") := by
  refine ⟨rfl, List.cons_ne_nil _ _, rfl, rfl⟩

/-- C2 counterexample: starting a session with an empty name from the idle
state does not fail with a validation error — it succeeds, creates database
rows and sets the active-session slot. -/
theorem c2_empty_name_not_rejected :
    (start_meeting okStartEnv "" [] idleAgent).2 =
      .ok { id := 1, name := "", participants := [], start_time := 0,
            audio_file_path := audioFilePath 1 0, status := "recording" } ∧
    (start_meeting okStartEnv "" [] idleAgent).1.current_meeting =
      some { id := 1, name := "", participants := [], start_time := 0,
             audio_file_path := audioFilePath 1 0, status := "recording" } ∧
    (start_meeting okStartEnv "" [] idleAgent).1.db_rows.length = 2 := by
  refine ⟨rfl, rfl, rfl⟩

/-- C2 amended: `MeetingAgent.start_meeting` performs no name validation.
When no session is active and the capture and transcription components start
successfully, a start call with an empty name succeeds: it returns a meeting
whose name is empty, sets the active-session slot to it, inserts two database
rows and starts one recording. -/
theorem c2_empty_name_start_succeeds (s : AgentState) (env : StartEnv) (p : List String)
    (h : s.current_meeting = none) (hr : env.recorder_ok = true)
    (htr : env.transcriber_ok = true) :
    ∃ m : Meeting, (start_meeting env "" p s).2 = .ok m ∧ m.name = "" ∧
      (start_meeting env "" p s).1.current_meeting = some m ∧
      (start_meeting env "" p s).1.db_rows.length = s.db_rows.length + 2 ∧
      (start_meeting env "" p s).1.audio_files.length = s.audio_files.length + 1 := by
  rw [start_meeting_idle env "" p s h hr htr]
  exact ⟨_, rfl, rfl, rfl, by simp, by simp⟩

/-- Witness for the amended C2, at the idle agent with working components. -/
theorem c2_empty_name_start_succeeds_witness :
    ∃ m : Meeting, (start_meeting okStartEnv "" [] idleAgent).2 = .ok m ∧ m.name = "" ∧
      (start_meeting okStartEnv "" [] idleAgent).1.current_meeting = some m ∧
      (start_meeting okStartEnv "" [] idleAgent).1.db_rows.length =
        idleAgent.db_rows.length + 2 ∧
      (start_meeting okStartEnv "" [] idleAgent).1.audio_files.length =
        idleAgent.audio_files.length + 1 :=
  c2_empty_name_start_succeeds idleAgent okStartEnv [] rfl rfl rfl

/-- C3 counterexample: when the transcript persistence fails during stop, the
error is surfaced, but the in-memory active-session slot is cleared — not
retained as the claim states. -/
theorem c3_persistence_failure_clears_slot :
    (stop_meeting dbFailStopEnv activeAgent).2 =
      .error (.dbError "update_meeting_transcript failed") ∧
    activeAgent.current_meeting = some demoMeeting ∧
    (stop_meeting dbFailStopEnv activeAgent).1.current_meeting = none := by
  refine ⟨rfl, rfl, rfl⟩

/-- C3 amended: when stopping a session fails with a persistence error, the
error is surfaced to the caller, but the in-memory current-session slot is
cleared by the exception handler, so a retried stop fails with the
no-active-session error instead of succeeding. -/
theorem c3_persistence_failure_surfaced_slot_cleared (s : AgentState) (m : Meeting)
    (env env2 : StopEnv) (ai t : String)
    (h : s.current_meeting = some m) (ha : env.audio_stop = .ok ai)
    (htr : env.transcriber_stop = .ok t) (hdb : env.db_update_transcript_ok = false) :
    stop_meeting env s =
      ({ s with current_meeting := none },
        .error (.dbError "update_meeting_transcript failed")) ∧
    (stop_meeting env2 { s with current_meeting := none }).2 =
      .error (.valueError "No meeting is currently being recorded") := by
  constructor
  · simp [stop_meeting, h, ha, htr, hdb]
  · simp [stop_meeting]

/-- Witness for the amended C3, at the recording agent with a failing
transcript persistence step. -/
theorem c3_persistence_failure_witness :
    stop_meeting dbFailStopEnv activeAgent =
      ({ activeAgent with current_meeting := none },
        .error (.dbError "update_meeting_transcript failed")) ∧
    (stop_meeting dbFailStopEnv { activeAgent with current_meeting := none }).2 =
      .error (.valueError "No meeting is currently being recorded") :=
  c3_persistence_failure_surfaced_slot_cleared activeAgent demoMeeting dbFailStopEnv
    dbFailStopEnv "audio closed" "hello world" rfl rfl rfl rfl

/-- C4: at most one active session exists.  A start call while a meeting is
active fails at once with the already-active `ValueError`, mutating nothing;
and after a successful start from idle (which creates exactly one recording
file), a second start without an intervening stop fails the same way with the
state unchanged, so exactly one audio file exists for the first session. -/
theorem c4_single_active_session (s s0 : AgentState) (m : Meeting)
    (env env2 : StartEnv) (n n2 : String) (p p2 : List String)
    (h : s.current_meeting = some m)
    (h0 : s0.current_meeting = none) (hr : env.recorder_ok = true)
    (htr : env.transcriber_ok = true) :
    start_meeting env n p s =
      (s, .error (.valueError "A meeting is already being recorded")) ∧
    (∃ m1 : Meeting, (start_meeting env n p s0).2 = .ok m1 ∧
      (start_meeting env n p s0).1.current_meeting = some m1) ∧
    (start_meeting env n p s0).1.audio_files =
      s0.audio_files ++ [audioFilePath (s0.db_rows.length + 1) env.now] ∧
    start_meeting env2 n2 p2 (start_meeting env n p s0).1 =
      ((start_meeting env n p s0).1,
        .error (.valueError "A meeting is already being recorded")) := by
  have hstart := start_meeting_idle env n p s0 h0 hr htr
  refine ⟨by simp [start_meeting, h], ?_, ?_, ?_⟩
  · rw [hstart]; exact ⟨_, rfl, rfl⟩
  · rw [hstart]
  · rw [hstart]; simp [start_meeting]

/-- Witness for C4, at the recording agent and the idle agent. -/
theorem c4_single_active_session_witness :
    start_meeting okStartEnv "Retro" [] activeAgent =
      (activeAgent, .error (.valueError "A meeting is already being recorded")) ∧
    (∃ m1 : Meeting, (start_meeting okStartEnv "Retro" [] idleAgent).2 = .ok m1 ∧
      (start_meeting okStartEnv "Retro" [] idleAgent).1.current_meeting = some m1) ∧
    (start_meeting okStartEnv "Retro" [] idleAgent).1.audio_files =
      idleAgent.audio_files ++ [audioFilePath (idleAgent.db_rows.length + 1) okStartEnv.now] ∧
    start_meeting okStartEnv "Sync" [] (start_meeting okStartEnv "Retro" [] idleAgent).1 =
      ((start_meeting okStartEnv "Retro" [] idleAgent).1,
        .error (.valueError "A meeting is already being recorded")) :=
  c4_single_active_session activeAgent idleAgent demoMeeting okStartEnv okStartEnv
    "Retro" "Sync" [] [] rfl rfl rfl rfl

/-- C5: once the recorder stop, transcriber stop and transcript persistence
succeed, `stop_meeting` returns a completed record and clears the
active-session slot for every outcome of the Summarization Service and of the
Notification Sender; a summarization failure is replaced by the placeholder
summary inside the returned record instead of raising. -/
theorem c5_stop_swallows_downstream_failures (s : AgentState) (m : Meeting)
    (env : StopEnv) (ai t : String)
    (h : s.current_meeting = some m) (ha : env.audio_stop = .ok ai)
    (htr : env.transcriber_stop = .ok t) (hdb : env.db_update_transcript_ok = true) :
    ∃ rec : CompletedMeeting,
      stop_meeting env s = ({ s with current_meeting := none }, .ok rec) ∧
      rec.status = "completed" ∧ rec.transcript = t ∧
      (∀ e, env.summarize = .error e → rec.summary = placeholderSummary e.msg) := by
  refine ⟨{ id := m.id, name := m.name, participants := m.participants
            start_time := m.start_time, audio_file_path := m.audio_file_path
            end_time := env.now, duration_minutes := (env.now - m.start_time) / 60
            transcript := t
            summary := match env.summarize with
              | .error e => placeholderSummary e.msg
              | .ok su => if env.db_update_summary_ok then su
                  else placeholderSummary "update_meeting_summary failed"
            audio_info := ai, cost := env.cost, status := "completed" }, ?_, rfl, rfl, ?_⟩
  · simp [stop_meeting, h, ha, htr, hdb]
  · intro e he
    simp [he]

/-- Witness for C5: stopping with the summarizer and the email sender both
failing still returns a completed record with the placeholder summary. -/
theorem c5_stop_swallows_downstream_failures_witness :
    ∃ rec : CompletedMeeting,
      stop_meeting downstreamFailStopEnv activeAgent =
        ({ activeAgent with current_meeting := none }, .ok rec) ∧
      rec.status = "completed" ∧ rec.transcript = "hello world" ∧
      (∀ e, downstreamFailStopEnv.summarize = .error e →
        rec.summary = placeholderSummary e.msg) :=
  c5_stop_swallows_downstream_failures activeAgent demoMeeting downstreamFailStopEnv
    "audio closed" "hello world" rfl rfl rfl rfl

/-- C6: each worker wake drains the whole buffer (all chunks appended so far,
in arrival order) by one swap inside the lock critical section, leaves the
buffer empty, releases the lock before any network call (the network call and
the segment callback are the only events after the release), and appends at
most one new segment to the right of the running transcript; consequently,
over any sequence of rounds the transcript is the in-order space-join of the
per-round segments, so segment order equals chunk arrival order. -/
theorem c6_drain_atomic_swap_fifo (s : Transcriber) (cs : List (List ℕ))
    (res : SvcResult) (ht : s.is_transcribing = true)
    (hne : s.audio_chunks ++ cs ≠ []) :
    (appendChunks s cs).audio_chunks = s.audio_chunks ++ cs ∧
    (∃ s' tail,
      process_audio_buffer res false (appendChunks s cs) =
        some (s', [.lockAcquire, .drain (s.audio_chunks ++ cs), .lockRelease] ++ tail) ∧
      s'.audio_chunks = [] ∧
      (tail = [] ∨
        tail = [.netCall (create_wav_from_chunks s.channels s.sample_width s.sample_rate
          (s.audio_chunks ++ cs))] ∨
        ∃ txt, tail = [.netCall (create_wav_from_chunks s.channels s.sample_width
            s.sample_rate (s.audio_chunks ++ cs)), .segEvt txt] ∧
          s'.current_transcript = joinSeg s.current_transcript txt)) ∧
    (s.audio_chunks = [] → ∀ rs : List Round,
      ∃ s' evs, runRounds s rs = some (s', evs) ∧
        s'.current_transcript = joinSegs s.current_transcript (rs.map Round.segs).flatten) := by
  have hA := appendChunks_on s cs ht
  refine ⟨by rw [hA], ?_, ?_⟩
  · rw [hA]
    by_cases h2 : (s.audio_chunks ++ cs).length < 2
    · have h2' : ¬ 2 ≤ s.audio_chunks.length + cs.length := by
        rw [List.length_append] at h2; omega
      exact ⟨{ s with audio_chunks := [] }, [],
        by simp [process_audio_buffer, hne, h2'], rfl, Or.inl rfl⟩
    · have h2' : 2 ≤ s.audio_chunks.length + cs.length := by
        rw [List.length_append] at h2; omega
      by_cases hw : (create_wav_from_chunks s.channels s.sample_width s.sample_rate
        (s.audio_chunks ++ cs)).length < 1000
      · have hw' : ¬ 1000 ≤ (create_wav_from_chunks s.channels s.sample_width s.sample_rate
          (s.audio_chunks ++ cs)).length := by omega
        have h2n : ¬ s.audio_chunks.length + cs.length < 2 := by omega
        exact ⟨{ s with audio_chunks := [] }, [],
          by simp [process_audio_buffer, hne, h2', h2n, hw, hw'], rfl, Or.inl rfl⟩
      · have hw' : 1000 ≤ (create_wav_from_chunks s.channels s.sample_width s.sample_rate
          (s.audio_chunks ++ cs)).length := Nat.not_lt.1 hw
        have h2n : ¬ s.audio_chunks.length + cs.length < 2 := by omega
        match res with
        | .error u =>
          exact ⟨{ s with audio_chunks := [] }, [.netCall _],
            by simp [process_audio_buffer, hne, h2', h2n, hw, hw'], rfl, Or.inr (Or.inl rfl)⟩
        | .ok raw =>
          by_cases htxt : raw.trim = ""
          · refine ⟨{ s with
                        audio_chunks := [],
                        total_audio_duration := s.total_audio_duration +
                          (((s.audio_chunks ++ cs).length : ℚ) * 1024) /
                            ((s.sample_rate : ℚ) * (s.channels : ℚ) * (s.sample_width : ℚ)),
                        total_cost := s.total_cost +
                          (((s.audio_chunks ++ cs).length : ℚ) * 1024) /
                            ((s.sample_rate : ℚ) * (s.channels : ℚ) * (s.sample_width : ℚ)) /
                            60 * whisperCostPerMinute },
              [.netCall _],
              by simp [process_audio_buffer, hne, h2', h2n, hw, hw', htxt], rfl,
              Or.inr (Or.inl rfl)⟩
          · refine ⟨{ s with
                        audio_chunks := [],
                        current_transcript := if s.current_transcript = "" then raw.trim
                          else s.current_transcript ++ " " ++ raw.trim,
                        total_audio_duration := s.total_audio_duration +
                          (((s.audio_chunks ++ cs).length : ℚ) * 1024) /
                            ((s.sample_rate : ℚ) * (s.channels : ℚ) * (s.sample_width : ℚ)),
                        total_cost := s.total_cost +
                          (((s.audio_chunks ++ cs).length : ℚ) * 1024) /
                            ((s.sample_rate : ℚ) * (s.channels : ℚ) * (s.sample_width : ℚ)) /
                            60 * whisperCostPerMinute },
              [.netCall _, .segEvt raw.trim],
              by simp [process_audio_buffer, hne, h2', h2n, hw, hw', htxt], rfl,
              Or.inr (Or.inr ⟨raw.trim, rfl, ?_⟩)⟩
            simp [joinSeg]
  · intro hb rs
    obtain ⟨s', evs, hrun, _, _, _, _, _, hTr, _, _⟩ := runRounds_run rs s ht hb
    exact ⟨s', evs, hrun, hTr⟩

/-- Witness for C6, at a freshly started transcriber with two appended chunks
and a succeeding service call. -/
theorem c6_drain_atomic_swap_fifo_witness :
    startedTranscriber.is_transcribing = true ∧
    startedTranscriber.audio_chunks ++ [[1], [2]] ≠ [] ∧
    ((appendChunks startedTranscriber [[1], [2]]).audio_chunks =
        startedTranscriber.audio_chunks ++ [[1], [2]] ∧
      (∃ s' tail,
        process_audio_buffer (.ok "hi") false (appendChunks startedTranscriber [[1], [2]]) =
          some (s', [.lockAcquire,
            .drain (startedTranscriber.audio_chunks ++ [[1], [2]]), .lockRelease] ++ tail) ∧
        s'.audio_chunks = [] ∧
        (tail = [] ∨
          tail = [.netCall (create_wav_from_chunks startedTranscriber.channels
            startedTranscriber.sample_width startedTranscriber.sample_rate
            (startedTranscriber.audio_chunks ++ [[1], [2]]))] ∨
          ∃ txt, tail = [.netCall (create_wav_from_chunks startedTranscriber.channels
              startedTranscriber.sample_width startedTranscriber.sample_rate
              (startedTranscriber.audio_chunks ++ [[1], [2]])), .segEvt txt] ∧
            s'.current_transcript = joinSeg startedTranscriber.current_transcript txt)) ∧
      (startedTranscriber.audio_chunks = [] → ∀ rs : List Round,
        ∃ s' evs, runRounds startedTranscriber rs = some (s', evs) ∧
          s'.current_transcript =
            joinSegs startedTranscriber.current_transcript (rs.map Round.segs).flatten)) :=
  ⟨rfl, by decide,
    c6_drain_atomic_swap_fifo startedTranscriber [[1], [2]] (.ok "hi") rfl (by decide)⟩

/-- C8: a failed transcription call on one batch is swallowed — the wake still
returns, draining the buffer but leaving transcript, cost and billed duration
untouched; over any sequence of rounds every round is processed and cost,
duration and transcript accumulate exactly the per-round contributions, failed
rounds contributing zero to all three; in particular when the first batch
fails and a later batch succeeds, the final transcript contains only the
successful segment, the accumulated cost reflects only the successful call,
and a subsequent stop completes returning that transcript. -/
theorem c8_batch_failure_isolated (s : Transcriber) (b1 b2 : List (List ℕ)) (t : String)
    (ht : s.is_transcribing = true) (hb : s.audio_chunks = []) :
    (∀ cs, ∃ s1 evs,
      process_audio_buffer (.error ()) false { s with audio_chunks := cs } =
        some (s1, evs) ∧
      s1.current_transcript = s.current_transcript ∧
      s1.total_cost = s.total_cost ∧
      s1.total_audio_duration = s.total_audio_duration ∧
      s1.audio_chunks = []) ∧
    (∀ rs : List Round, ∃ s' evs, runRounds s rs = some (s', evs) ∧
      s'.total_cost = s.total_cost +
        (rs.map (Round.cost s.sample_rate s.channels s.sample_width)).sum ∧
      s'.total_audio_duration = s.total_audio_duration +
        (rs.map (Round.billedDur s.sample_rate s.channels s.sample_width)).sum ∧
      s'.current_transcript = joinSegs s.current_transcript (rs.map Round.segs).flatten) ∧
    (∀ r : Round, r.res = .error () →
      Round.cost s.sample_rate s.channels s.sample_width r = 0 ∧
      Round.billedDur s.sample_rate s.channels s.sample_width r = 0 ∧
      Round.segs r = []) ∧
    (s.current_transcript = "" →
      Round.qualifies ⟨b2, Except.ok t⟩ → t.trim ≠ "" →
      ∃ s' evs,
        runRounds s [⟨b1, .error ()⟩, ⟨b2, .ok t⟩] = some (s', evs) ∧
        s'.current_transcript = t.trim ∧
        s'.total_cost = s.total_cost +
          Round.cost s.sample_rate s.channels s.sample_width ⟨b2, .ok t⟩ ∧
        stop_transcription (.ok "") s' =
          some ({ s' with is_transcribing := false }, t.trim)) := by
  have hsegErr : ∀ cs, Round.segs ⟨cs, Except.error ()⟩ = [] := by
    intro cs; simp [Round.segs]
  have hdurErr : ∀ cs rate ch w, Round.billedDur rate ch w ⟨cs, Except.error ()⟩ = 0 := by
    intro cs rate ch w; simp [Round.billedDur]
  have hcostErr : ∀ cs rate ch w, Round.cost rate ch w ⟨cs, Except.error ()⟩ = 0 := by
    intro cs rate ch w; simp [Round.cost, hdurErr]
  refine ⟨?_, ?_, ?_, ?_⟩
  · intro cs
    obtain ⟨s1, evs, hrun, hT, hB, _, _, _, hTr, hD, hCo, _⟩ :=
      process_audio_buffer_run (.error ()) { s with audio_chunks := cs }
    dsimp only at hTr hD hCo
    refine ⟨s1, evs, hrun, ?_, ?_, ?_, hB⟩
    · rw [hTr, hsegErr]; simp [joinSegs]
    · rw [hCo, hcostErr]; ring
    · rw [hD, hdurErr]; ring
  · intro rs
    obtain ⟨s', evs, hrun, _, _, _, _, _, hTr, hD, hCo⟩ := runRounds_run rs s ht hb
    exact ⟨s', evs, hrun, hCo, hD, hTr⟩
  · intro r hres
    obtain ⟨chs, rres⟩ := r
    cases hres
    exact ⟨hcostErr _ _ _ _, hdurErr _ _ _ _, hsegErr _⟩
  · intro hct hq2 htrim
    obtain ⟨s', evs, hrun, hT', hB', _, _, _, hTr, _, hCo⟩ :=
      runRounds_run [⟨b1, .error ()⟩, ⟨b2, .ok t⟩] s ht hb
    have hseg2 : Round.segs ⟨b2, Except.ok t⟩ = [t.trim] := by
      simp [Round.segs, hq2, htrim]
    have hTr' : s'.current_transcript = t.trim := by
      rw [hTr, hct]
      simp [hsegErr, hseg2, joinSegs, joinSeg]
    refine ⟨s', evs, hrun, hTr', ?_, ?_⟩
    · rw [hCo]
      simp [hcostErr]
    · rw [stop_transcription_empty_buffer (.ok "") s' hT' hB', hTr']

/-- Witness for C8, at a freshly started transcriber with two qualifying
500-byte-chunk batches and the text "hello". -/
theorem c8_batch_failure_isolated_witness :
    startedTranscriber.is_transcribing = true ∧
    startedTranscriber.audio_chunks = [] ∧
    ((∀ cs, ∃ s1 evs,
      process_audio_buffer (.error ()) false
          { startedTranscriber with audio_chunks := cs } = some (s1, evs) ∧
      s1.current_transcript = startedTranscriber.current_transcript ∧
      s1.total_cost = startedTranscriber.total_cost ∧
      s1.total_audio_duration = startedTranscriber.total_audio_duration ∧
      s1.audio_chunks = []) ∧
    (∀ rs : List Round, ∃ s' evs, runRounds startedTranscriber rs = some (s', evs) ∧
      s'.total_cost = startedTranscriber.total_cost +
        (rs.map (Round.cost startedTranscriber.sample_rate startedTranscriber.channels
          startedTranscriber.sample_width)).sum ∧
      s'.total_audio_duration = startedTranscriber.total_audio_duration +
        (rs.map (Round.billedDur startedTranscriber.sample_rate startedTranscriber.channels
          startedTranscriber.sample_width)).sum ∧
      s'.current_transcript =
        joinSegs startedTranscriber.current_transcript (rs.map Round.segs).flatten) ∧
    (∀ r : Round, r.res = .error () →
      Round.cost startedTranscriber.sample_rate startedTranscriber.channels
        startedTranscriber.sample_width r = 0 ∧
      Round.billedDur startedTranscriber.sample_rate startedTranscriber.channels
        startedTranscriber.sample_width r = 0 ∧
      Round.segs r = []) ∧
    (startedTranscriber.current_transcript = "" →
      Round.qualifies ⟨[List.replicate 500 0, List.replicate 500 0], Except.ok "hello"⟩ →
      ("hello" : String).trim ≠ "" →
      ∃ s' evs,
        runRounds startedTranscriber
            [⟨[List.replicate 500 0, List.replicate 500 0], .error ()⟩,
             ⟨[List.replicate 500 0, List.replicate 500 0], .ok "hello"⟩] =
          some (s', evs) ∧
        s'.current_transcript = ("hello" : String).trim ∧
        s'.total_cost = startedTranscriber.total_cost +
          Round.cost startedTranscriber.sample_rate startedTranscriber.channels
            startedTranscriber.sample_width
            ⟨[List.replicate 500 0, List.replicate 500 0], .ok "hello"⟩ ∧
        stop_transcription (.ok "") s' =
          some ({ s' with is_transcribing := false }, ("hello" : String).trim))) :=
  ⟨rfl, rfl, c8_batch_failure_isolated startedTranscriber
    [List.replicate 500 0, List.replicate 500 0]
    [List.replicate 500 0, List.replicate 500 0] "hello" rfl rfl⟩

/-- C7: a drained batch below the minimum chunk count, or whose framed payload
is below the minimum byte size, is discarded silently: the wake returns
normally with no network call, no segment event, no final event, no transcript
change and no cost or billed-duration accrual; only the buffer is emptied. -/
theorem c7_small_batch_silent_noop (s : Transcriber) (res : SvcResult)
    (hsmall : s.audio_chunks.length < 2 ∨
      (create_wav_from_chunks s.channels s.sample_width s.sample_rate
        s.audio_chunks).length < 1000) :
    ∃ s' evs, process_audio_buffer res false s = some (s', evs) ∧
      (∀ w, TEvent.netCall w ∉ evs) ∧
      (∀ txt, TEvent.segEvt txt ∉ evs) ∧
      (∀ txt, TEvent.finalEvt txt ∉ evs) ∧
      s'.current_transcript = s.current_transcript ∧
      s'.total_cost = s.total_cost ∧
      s'.total_audio_duration = s.total_audio_duration ∧
      s'.audio_chunks = [] := by
  by_cases hb : s.audio_chunks = []
  · exact ⟨s, [.lockAcquire, .lockRelease], by simp [process_audio_buffer, hb],
      by simp, by simp, by simp, rfl, rfl, rfl, hb⟩
  · by_cases h2 : s.audio_chunks.length < 2
    · exact ⟨{ s with audio_chunks := [] },
        [.lockAcquire, .drain s.audio_chunks, .lockRelease],
        by simp [process_audio_buffer, hb, h2],
        by simp, by simp, by simp, rfl, rfl, rfl, rfl⟩
    · have hw := hsmall.resolve_left h2
      exact ⟨{ s with audio_chunks := [] },
        [.lockAcquire, .drain s.audio_chunks, .lockRelease],
        by simp [process_audio_buffer, hb, h2, hw],
        by simp, by simp, by simp, rfl, rfl, rfl, rfl⟩

/-- Witness for C7: a single 4-byte chunk is below the 2-chunk minimum and is
dropped without a call or any cost. -/
theorem c7_small_batch_silent_noop_witness :
    ({ startedTranscriber with audio_chunks := [[0, 0, 0, 0]] } :
        Transcriber).audio_chunks.length < 2 ∧
    ∃ s' evs, process_audio_buffer (.ok "hi") false
        { startedTranscriber with audio_chunks := [[0, 0, 0, 0]] } = some (s', evs) ∧
      (∀ w, TEvent.netCall w ∉ evs) ∧
      (∀ txt, TEvent.segEvt txt ∉ evs) ∧
      (∀ txt, TEvent.finalEvt txt ∉ evs) ∧
      s'.current_transcript =
        ({ startedTranscriber with audio_chunks := [[0, 0, 0, 0]] } :
          Transcriber).current_transcript ∧
      s'.total_cost =
        ({ startedTranscriber with audio_chunks := [[0, 0, 0, 0]] } :
          Transcriber).total_cost ∧
      s'.total_audio_duration =
        ({ startedTranscriber with audio_chunks := [[0, 0, 0, 0]] } :
          Transcriber).total_audio_duration ∧
      s'.audio_chunks = [] :=
  ⟨by decide, c7_small_batch_silent_noop
    { startedTranscriber with audio_chunks := [[0, 0, 0, 0]] } (.ok "hi")
    (Or.inl (by decide))⟩

/-- A transcribing instance holding exactly 12 buffered chunks of 1024 bytes,
as in the 3-second capture window scenario. -/
def twelveChunkTranscriber : Transcriber :=
  { startedTranscriber with audio_chunks := List.replicate 12 (List.replicate 1024 0) }

/-- C9: a drain of exactly 12 chunks of 1024 bytes each, captured 16-bit mono
at 44100 Hz, produces exactly one framed payload sent to the service; its size
is the 44-byte WAV header plus 12 × 1024 data bytes, its first 44 bytes are
precisely the header declaring 1 channel, sample width 2 and rate 44100, and
the rest is the chunk data concatenated in order. -/
theorem c9_twelve_chunks_single_payload (s : Transcriber) (res : SvcResult)
    (hrate : s.sample_rate = 44100) (hch : s.channels = 1) (hwd : s.sample_width = 2)
    (hn : s.audio_chunks.length = 12) (hc : ∀ c ∈ s.audio_chunks, c.length = 1024) :
    ∃ s' evs, process_audio_buffer res false s = some (s', evs) ∧
      netPayloads evs = [create_wav_from_chunks 1 2 44100 s.audio_chunks] ∧
      (create_wav_from_chunks 1 2 44100 s.audio_chunks).length = 44 + 12 * 1024 ∧
      (create_wav_from_chunks 1 2 44100 s.audio_chunks).take 44 =
        wavHeader 1 2 44100 (12 * 1024) ∧
      (create_wav_from_chunks 1 2 44100 s.audio_chunks).drop 44 =
        s.audio_chunks.flatten := by
  have hmap : s.audio_chunks.map List.length = List.replicate 12 1024 :=
    List.eq_replicate_iff.2 ⟨by simp [hn], by
      intro x hx
      obtain ⟨c, hcmem, rfl⟩ := List.mem_map.1 hx
      exact hc c hcmem⟩
  have hflat : s.audio_chunks.flatten.length = 12 * 1024 := by
    rw [List.length_flatten, hmap]
    simp [List.sum_replicate, smul_eq_mul]
  have hwavlen : (create_wav_from_chunks 1 2 44100 s.audio_chunks).length =
      44 + 12 * 1024 := by
    rw [create_wav_length, hflat]
  have htake : (create_wav_from_chunks 1 2 44100 s.audio_chunks).take 44 =
      wavHeader 1 2 44100 (12 * 1024) := by
    unfold create_wav_from_chunks
    rw [hflat, ← wavHeader_length 1 2 44100 (12 * 1024), List.take_left]
  have hdrop : (create_wav_from_chunks 1 2 44100 s.audio_chunks).drop 44 =
      s.audio_chunks.flatten := by
    unfold create_wav_from_chunks
    rw [hflat, ← wavHeader_length 1 2 44100 (12 * 1024), List.drop_left]
  have hq : Round.qualifies ⟨s.audio_chunks, res⟩ := by
    unfold Round.qualifies
    dsimp only
    omega
  obtain ⟨s', evs, hrun, _, _, _, _, _, _, _, _, hNet⟩ := process_audio_buffer_run res s
  rw [if_pos hq, hch, hwd, hrate] at hNet
  exact ⟨s', evs, hrun, hNet, hwavlen, htake, hdrop⟩

/-- Witness for C9, at the 12-chunk fixture with a succeeding service call. -/
theorem c9_twelve_chunks_single_payload_witness :
    twelveChunkTranscriber.sample_rate = 44100 ∧
    twelveChunkTranscriber.channels = 1 ∧
    twelveChunkTranscriber.sample_width = 2 ∧
    twelveChunkTranscriber.audio_chunks.length = 12 ∧
    (∀ c ∈ twelveChunkTranscriber.audio_chunks, c.length = 1024) ∧
    (∃ s' evs, process_audio_buffer (.ok "ok") false twelveChunkTranscriber =
        some (s', evs) ∧
      netPayloads evs =
        [create_wav_from_chunks 1 2 44100 twelveChunkTranscriber.audio_chunks] ∧
      (create_wav_from_chunks 1 2 44100 twelveChunkTranscriber.audio_chunks).length =
        44 + 12 * 1024 ∧
      (create_wav_from_chunks 1 2 44100 twelveChunkTranscriber.audio_chunks).take 44 =
        wavHeader 1 2 44100 (12 * 1024) ∧
      (create_wav_from_chunks 1 2 44100 twelveChunkTranscriber.audio_chunks).drop 44 =
        twelveChunkTranscriber.audio_chunks.flatten) :=
  ⟨rfl, rfl, rfl, List.length_replicate 12 _,
    by
      intro c hcm
      rw [List.eq_of_mem_replicate hcm]
      exact List.length_replicate 1024 _,
    c9_twelve_chunks_single_payload twelveChunkTranscriber (.ok "ok") rfl rfl rfl
      (List.length_replicate 12 _)
      (by
        intro c hcm
        rw [List.eq_of_mem_replicate hcm]
        exact List.length_replicate 1024 _)⟩

/-- C10: `start_transcription` on a non-running instance succeeds, resets the
transcript to empty and clears the chunk buffer, but leaves `total_cost` and
`total_audio_duration` unchanged, so `get_cost_info` reports the same totals
after the new session starts — cost accumulates across sessions on the same
instance rather than being per-session. -/
theorem c10_start_resets_but_keeps_cost (s : Transcriber)
    (h : s.is_transcribing = false) :
    start_transcription s =
      ({ s with is_transcribing := true, current_transcript := "", audio_chunks := [] },
        true) ∧
    (start_transcription s).1.total_cost = s.total_cost ∧
    (start_transcription s).1.total_audio_duration = s.total_audio_duration ∧
    get_cost_info (start_transcription s).1 = get_cost_info s := by
  have heq : start_transcription s =
      ({ s with is_transcribing := true, current_transcript := "", audio_chunks := [] },
        true) := by
    simp [start_transcription, h]
  refine ⟨heq, ?_, ?_, ?_⟩
  · rw [heq]
  · rw [heq]
  · rw [heq]
    simp [get_cost_info]

/-- A fresh instance carrying cost totals from earlier sessions. -/
def usedTranscriber : Transcriber :=
  { initTranscriber with
      total_cost := 7
      total_audio_duration := 300
      current_transcript := "old words" }

/-- Witness for C10, at a non-running instance carrying prior cost totals. -/
theorem c10_start_resets_but_keeps_cost_witness :
    usedTranscriber.is_transcribing = false ∧
    (start_transcription usedTranscriber =
      ({ usedTranscriber with
            is_transcribing := true
            current_transcript := ""
            audio_chunks := [] }, true) ∧
    (start_transcription usedTranscriber).1.total_cost = usedTranscriber.total_cost ∧
    (start_transcription usedTranscriber).1.total_audio_duration =
      usedTranscriber.total_audio_duration ∧
    get_cost_info (start_transcription usedTranscriber).1 =
      get_cost_info usedTranscriber) :=
  ⟨rfl, c10_start_resets_but_keeps_cost usedTranscriber rfl⟩

end MeetingAgentProof
